import Mathlib

/-!
Verification development for the garp-shipping-connector pipeline.

This file shallowly embeds the parts of the Python source that the
specification talks about:

  * `src/parsers/models.py`     — the shipment data model,
  * `src/parsers/xml_parser.py` — service-code and container parsing,
  * `src/carriers/dhl.py`       — postal-code normalization, payload
    building, label retrieval and print-response extraction,
  * `src/carriers/postnord.py`  — booking-payload building,
  * `src/orchestrator.py`       — per-file processing, locking, events.

Python floats on the decimal strings GARP exports are modelled as
rationals (`ℚ`); HTTP calls, the clock and the event callback are
modelled as explicit oracle parameters; exceptions are modelled with
`Except`/`Option` results.  String primitives (`strip`, `split`,
`upper`, substring test, base64 decoding) are re-implemented by
structural recursion over character lists so that every definition is
kernel-reducible.
-/

deriving instance DecidableEq for Except

namespace Garp

/-- ASCII whitespace, the characters Python's `str.strip()` removes on
the data this system sees. -/
def isSpace (c : Char) : Bool :=
  c = ' ' || c = '\t' || c = '\n' || c = '\r'

/-- Python's `str.strip()`: drop leading and trailing whitespace. -/
def pyStrip (s : String) : String :=
  ⟨((s.toList.dropWhile isSpace).reverse.dropWhile isSpace).reverse⟩

/-- Split a character list on a separator character; mirrors Python's
`str.split(sep)` for a one-character separator (in particular
`"".split(sep) == [""]`). -/
def splitCharList (sep : Char) : List Char → List (List Char)
  | [] => [[]]
  | c :: rest =>
    match splitCharList sep rest with
    | [] => if c = sep then [[], []] else [[c]]
    | g :: gs => if c = sep then [] :: g :: gs else (c :: g) :: gs

/-- Python's `str.split(sep)` for a one-character separator. -/
def pySplit (s : String) (sep : Char) : List String :=
  (splitCharList sep s.toList).map (fun cs => ⟨cs⟩)

/-- Python's `str.upper()` (ASCII range, which covers the carrier
tokens this system handles). -/
def pyUpper (s : String) : String :=
  ⟨s.toList.map Char.toUpper⟩

/-- Python's `s[:n]` on strings. -/
def takeStr (n : Nat) (s : String) : String :=
  ⟨s.toList.take n⟩

/-- Does `pat` occur inside the list (substring containment)? -/
def containsSub (pat : List Char) : List Char → Bool
  | [] => pat.isPrefixOf []
  | c :: rest => pat.isPrefixOf (c :: rest) || containsSub pat rest

/-- Python's `pat in s` substring test. -/
def strContains (s pat : String) : Bool :=
  containsSub pat.toList s.toList

/-- Python `dict` lookup for a dict built from an association list in
insertion order: a later binding of the same key overwrites an earlier
one. -/
def dictGet {α : Type} : List (String × α) → String → Option α
  | [], _ => none
  | (k', v) :: rest, k =>
    match dictGet rest k with
    | some v' => some v'
    | none => if k = k' then some v else none

/-- Value of a digit list, most significant first (helper for
`pyFloat`). -/
def natOfDigits (cs : List Char) : Nat :=
  cs.foldl (fun n c => n * 10 + (c.toNat - 48)) 0

/-- A signed rational from a numerator magnitude and a denominator
(helper for `pyFloat`, kept in `mkRat` form so that it is
kernel-reducible). -/
def signedRat (neg : Bool) (num den : Nat) : ℚ :=
  mkRat (if neg then -(num : Int) else (num : Int)) den

/-- Python's `float(s)` restricted to the plain decimal notation the
GARP export uses (optional sign, digits, optional fraction part; no
exponent forms).  `none` models the `ValueError` Python raises on a
malformed number. -/
def pyFloat (s : String) : Option ℚ :=
  let t := pyStrip s
  let signBody : Bool × List Char :=
    match t.toList with
    | '-' :: rest => (true, rest)
    | '+' :: rest => (false, rest)
    | cs => (false, cs)
  match splitCharList '.' signBody.2 with
  | [ip] =>
    if ip.all Char.isDigit ∧ ip ≠ [] then
      some (signedRat signBody.1 (natOfDigits ip) 1)
    else none
  | [ip, fp] =>
    if ip.all Char.isDigit ∧ fp.all Char.isDigit ∧ ¬(ip = [] ∧ fp = []) then
      some (signedRat signBody.1
        (natOfDigits ip * 10 ^ fp.length + natOfDigits fp) (10 ^ fp.length))
    else none
  | _ => none

/-- Python's `int(q)` on a float: truncation toward zero. -/
def pyIntOfFloat (q : ℚ) : Int :=
  if q < 0 then -(⌊-q⌋) else ⌊q⌋

/-- Base64 value of one alphabet character; `none` for characters
outside the alphabet (which `base64.b64decode` discards by default). -/
def b64val (c : Char) : Option Nat :=
  if 'A' ≤ c ∧ c ≤ 'Z' then some (c.toNat - 65)
  else if 'a' ≤ c ∧ c ≤ 'z' then some (c.toNat - 97 + 26)
  else if '0' ≤ c ∧ c ≤ '9' then some (c.toNat - 48 + 52)
  else if c = '+' then some 62
  else if c = '/' then some 63
  else none

/-- Reassemble 6-bit groups into bytes (helper for `b64decode`). -/
def b64groups : List Nat → List Nat
  | a :: b :: c :: d :: rest =>
    (a * 4 + b / 16) :: ((b % 16) * 16 + c / 4) :: ((c % 4) * 64 + d) ::
      b64groups rest
  | [a, b] => [a * 4 + b / 16]
  | [a, b, c] => [a * 4 + b / 16, (b % 16) * 16 + c / 4]
  | _ => []

/-- Python's `base64.b64decode`, producing a byte list. -/
def b64decode (s : String) : List Nat :=
  b64groups ((s.toList.filter (fun c => c ≠ '=')).filterMap b64val)

/-- Carriers known to the system (`CarrierType` in `models.py`). -/
inductive CarrierType
  | DHL
  | POSTNORD
  deriving DecidableEq

/-- The enum member's string value (`DHL = "DHL"`, `POSTNORD = "PN"`). -/
def CarrierType.value : CarrierType → String
  | .DHL => "DHL"
  | .POSTNORD => "PN"

/-- Enum lookup by value, `CarrierType(carrier_str)` in Python:
succeeds exactly on the declared member values. -/
def carrierOfValue (s : String) : Option CarrierType :=
  if s = "DHL" then some .DHL
  else if s = "PN" then some .POSTNORD
  else none

/-- `Receiver` dataclass (`models.py` lines 15-27). -/
structure Receiver where
  rcvid : String := ""
  name : String := ""
  address1 : String := ""
  address2 : String := ""
  zipcode : String := ""
  city : String := ""
  country : String := ""
  phone : String := ""
  email : String := ""
  contact : String := ""
  sms : String := ""
  deriving DecidableEq

/-- `Container` dataclass (`models.py` lines 30-41); Python floats are
modelled as rationals. -/
structure Container where
  container_type : String := "parcel"
  measure : String := ""
  copies : Int := 1
  package_code : String := "PC"
  contents : String := ""
  weight : ℚ := 0
  volume : ℚ := 0
  length : ℚ := 0
  width : ℚ := 0
  height : ℚ := 0
  deriving DecidableEq

/-- `BookingInfo` dataclass (`models.py` lines 44-47). -/
structure BookingInfo where
  pickup_booking : Bool := false
  pickup_date : String := ""
  deriving DecidableEq

/-- `Notification` dataclass (`models.py` lines 50-53). -/
structure Notification where
  opt_id : String := ""
  message : String := ""
  deriving DecidableEq

/-- `ServiceInfo` dataclass (`models.py` lines 56-67). -/
structure ServiceInfo where
  carrier : CarrierType := .DHL
  product_code : String := ""
  addon : String := ""
  raw_srvid : String := ""
  booking : Option BookingInfo := none
  deriving DecidableEq

/-- `Shipment` dataclass (`models.py` lines 70-87); the post-API fields
(tracking number, label bytes) are carried with their defaults. -/
structure Shipment where
  order_no : String := ""
  sender_name : String := ""
  reference : String := ""
  term_code : String := ""
  service : Option ServiceInfo := none
  receiver : Option Receiver := none
  containers : List Container := []
  notifications : List Notification := []
  delivery_instruction : String := ""
  tracking_number : String := ""
  shipment_id : String := ""
  label_data : List Nat := []
  label_format : String := ""
  deriving DecidableEq

/-- Error message of `_parse_srvid` for a code with fewer than two
segments. -/
def invalidSrvidMsg (srvid : String) : String :=
  "Ogiltig srvid: '" ++ srvid ++
    "'. Förväntat format: TRANSPORTÖR:PRODUKTKOD[:TILLÄGG]"

/-- Error message of `_parse_srvid` for an unrecognized carrier token. -/
def unknownCarrierMsg (carrier_str srvid : String) : String :=
  "Okänd transportör: '" ++ carrier_str ++ "' i srvid '" ++ srvid ++ "'"

/-- `GarpXMLParser._parse_srvid` (`xml_parser.py` lines 133-164): split
the service code on `:`; fewer than two segments is invalid; the first
segment (trimmed, upper-cased) must be a known carrier value; the third
segment, when present, is the addon. -/
def parse_srvid (srvid : String) : Except String (CarrierType × String × String) :=
  let parts := pySplit srvid ':'
  if parts.length < 2 then
    .error (invalidSrvidMsg srvid)
  else
    let carrier_str := pyUpper (pyStrip (parts.getD 0 ""))
    let product_code := pyStrip (parts.getD 1 "")
    let addon := if parts.length > 2 then pyStrip (parts.getD 2 "") else ""
    match carrierOfValue carrier_str with
    | none => .error (unknownCarrierMsg carrier_str srvid)
    | some carrier => .ok (carrier, product_code, addon)

/-- A leaf XML element, such as `<val n="weight">5.5</val>`:
tag, attributes, and optional text. -/
structure XLeaf where
  tag : String := ""
  attrs : List (String × String) := []
  text : Option String := none
  deriving DecidableEq

/-- An XML element with leaf children, as `_parse_container` sees a
`<container>` element. -/
structure XElem where
  tag : String := ""
  attrs : List (String × String) := []
  children : List XLeaf := []
  deriving DecidableEq

/-- `elem.get(name, default)` on an element's attributes. -/
def xGet (attrs : List (String × String)) (k d : String) : String :=
  (dictGet attrs k).getD d

/-- `GarpXMLParser._extract_vals` (`xml_parser.py` lines 190-201): all
`<val n="key">value</val>` children as a key/value dict, values
stripped of the export's whitespace padding. -/
def extract_vals (elem : XElem) : List (String × String) :=
  (elem.children.filter (fun v => v.tag = "val")).map
    (fun v => (xGet v.attrs "n" "", pyStrip (v.text.getD "")))

/-- `vals.get(key, default)` on the extracted value dict. -/
def valsGet (vals : List (String × String)) (k d : String) : String :=
  (dictGet vals k).getD d

/-- `GarpXMLParser._parse_container` (`xml_parser.py` lines 166-176);
`none` models the `ValueError` of a malformed numeric field. -/
def parse_container (elem : XElem) : Option Container :=
  let vals := extract_vals elem
  match pyFloat (valsGet vals "copies" "1"), pyFloat (valsGet vals "weight" "0"),
      pyFloat (valsGet vals "volume" "0") with
  | some cp, some w, some v =>
    some { container_type := xGet elem.attrs "type" "parcel"
           measure := xGet elem.attrs "measure" ""
           copies := pyIntOfFloat cp
           package_code := valsGet vals "packagecode" "PC"
           contents := valsGet vals "contents" ""
           weight := w
           volume := v }
  | _, _, _ => none

/-- `clean_postal_code` (`dhl.py` lines 77-87): trim, then strip a
two-letter alphabetic country prefix followed by a hyphen, but only
when the trimmed string is longer than three characters. -/
def clean_postal_code (zipcode : String) : String :=
  let cleaned := pyStrip zipcode
  let cs := cleaned.toList
  if cs.length > 3 ∧ cs.getD 2 ' ' = '-' ∧ (cs.take 2).all Char.isAlpha then
    ⟨cs.drop 3⟩
  else
    cleaned

/-- `ADDON_MAPPING` (`dhl.py` lines 52-63): addon token to DHL API
vocabulary. -/
def addonMapping (a : String) : Option String :=
  dictGet
    [ ("notification", "notification")
    , ("AVIS", "notification")
    , ("preAdviceDelivery", "preAdviceDelivery")
    , ("tailLiftUnloading", "tailLiftUnloading")
    , ("tailLiftLoading", "tailLiftLoading")
    , ("indoorDelivery", "indoorDelivery")
    , ("dangerousGoods", "dangerousGoods")
    , ("insurance", "insurance")
    , ("collectionAtTerminal", "collectionAtTerminal")
    , ("nonStackable", "nonStackable") ] a

/-- `PACKAGE_TYPE_DEFAULTS` (`dhl.py` lines 69-71): per-product package
type default table; only the pallet product 210 has an entry. -/
def packageTypeDefaults (product_code : String) : Option String :=
  dictGet [ ("210", "701") ] product_code

/-- Sender configuration (the `sender` section of `config.yaml`, read
through `dict.get` with the defaults shown in `dhl.py`/`postnord.py`). -/
structure SenderConfig where
  name : String := ""
  address1 : String := ""
  zipcode : String := ""
  city : String := ""
  country : String := "SE"
  phone : String := ""
  email : String := ""
  deriving DecidableEq

/-- Nested address object of a DHL party
(`_build_transport_instruction`, `dhl.py` lines 512-517). -/
structure DHLAddress where
  street : String
  cityName : String
  postalCode : String
  countryCode : String
  deriving DecidableEq

/-- One entry of the DHL `parties` array; only the consignor dict
carries an `id` key, so `id` is optional. -/
structure DHLParty where
  id : Option String
  type : String
  name : String
  references : List String
  address : DHLAddress
  phone : String
  email : String
  deriving DecidableEq

/-- One entry of the DHL `pieces` array; the `length`/`width`/`height`
keys are only added when the container dimension is positive, so they
are optional. -/
structure DHLPiece where
  id : List String
  packageType : String
  numberOfPieces : Int
  weight : ℚ
  volume : ℚ
  length : Option ℚ := none
  width : Option ℚ := none
  height : Option ℚ := none
  deriving DecidableEq

/-- The `payerCode` object of the DHL payload. -/
structure PayerCode where
  code : String
  location : String
  deriving DecidableEq

/-- The JSON payload built by `_build_transport_instruction`
(`dhl.py` lines 568-584); `additionalServices` is the bool-valued
object, kept as an association list. -/
structure DHLPayload where
  id : String
  productCode : String
  shippingDate : String
  deliveryInstruction : String
  pickupInstruction : String
  totalNumberOfPieces : Int
  totalWeight : ℚ
  totalVolume : ℚ
  payerCode : PayerCode
  parties : List DHLParty
  additionalServices : List (String × Bool)
  pieces : List DHLPiece
  deriving DecidableEq

/-- `DHLClient._build_transport_instruction` (`dhl.py` lines 474-586).
`today` stands for `date.today().isoformat()`; `none` models the
`AttributeError` the Python code would raise when the shipment has no
receiver or no service info. -/
def build_transport_instruction (sender : SenderConfig)
    (customer_number : String) (today : String) (shipment : Shipment) :
    Option DHLPayload :=
  match shipment.receiver, shipment.service with
  | some recv, some service =>
    let container := shipment.containers.head?
    let product_code := service.product_code
    let weight := match container with
      | some c => c.weight
      | none => 1
    let volume0 : ℚ := match container with
      | some c => c.volume
      | none => mkRat 1 1000
    let volume := if volume0 ≤ 0 then mkRat 1 1000 else volume0
    let copies := match container with
      | some c => c.copies
      | none => 1
    let shipping_date := match service.booking with
      | some b => if b.pickup_date ≠ "" then b.pickup_date else today
      | none => today
    let sender_zip := clean_postal_code sender.zipcode
    let recv_zip := clean_postal_code recv.zipcode
    let parties : List DHLParty :=
      [ { id := some customer_number
          type := "Consignor"
          name := sender.name
          references := if shipment.reference ≠ "" then [shipment.reference] else []
          address := { street := sender.address1
                       cityName := sender.city
                       postalCode := sender_zip
                       countryCode := sender.country }
          phone := sender.phone
          email := sender.email }
      , { id := none
          type := "Consignee"
          name := recv.name
          references := []
          address := { street := recv.address1
                       cityName := recv.city
                       postalCode := recv_zip
                       countryCode := recv.country }
          phone := recv.phone
          email := recv.email } ]
    let pkg_type := match container with
      | some c =>
        if c.package_code ≠ "" then c.package_code
        else (packageTypeDefaults product_code).getD "PKT"
      | none => (packageTypeDefaults product_code).getD "PKT"
    let pieces : List DHLPiece :=
      [ { id := [""]
          packageType := pkg_type
          numberOfPieces := copies
          weight := weight
          volume := volume
          length := match container with
            | some c => if c.length > 0 then some c.length else none
            | none => none
          width := match container with
            | some c => if c.width > 0 then some c.width else none
            | none => none
          height := match container with
            | some c => if c.height > 0 then some c.height else none
            | none => none } ]
    let additional_services : List (String × Bool) :=
      if service.addon ≠ "" then
        [((addonMapping service.addon).getD service.addon, true)]
      else []
    some
      { id := ""
        productCode := product_code
        shippingDate := shipping_date
        deliveryInstruction := shipment.delivery_instruction
        pickupInstruction := ""
        totalNumberOfPieces := copies
        totalWeight := weight
        totalVolume := volume
        payerCode := { code := "1", location := "" }
        parties := parties
        additionalServices := additional_services
        pieces := pieces }
  | _, _ => none

/-- Contact object of a PostNord party; only the receiver contact
carries a `name` key. -/
structure PNContact where
  emailAddress : String
  phoneNo : String
  name : Option String := none
  deriving DecidableEq

/-- A PostNord party (sender or receiver); only the receiver dict has
an `addressLine2` key. -/
structure PNParty where
  name1 : String
  addressLine1 : String
  addressLine2 : Option String := none
  postalCode : String
  city : String
  countryCode : String
  contact : PNContact
  deriving DecidableEq

/-- A measured value with a unit in the PostNord payload. -/
structure PNMeasure where
  value : ℚ
  unit : String
  deriving DecidableEq

/-- One entry of the PostNord `parcels` array. -/
structure PNParcel where
  weight : PNMeasure
  volume : PNMeasure
  contents : String
  numberOfPackages : Int
  deriving DecidableEq

/-- The `service` object of the PostNord payload. -/
structure PNService where
  basicServiceCode : String
  additionalServiceCode : List String
  deriving DecidableEq

/-- The JSON payload built by `PostNordClient._build_booking_payload`
(`postnord.py` lines 143-203), flattened to the fields under
`shipment` plus the print media. -/
structure PNPayload where
  service : PNService
  sender : PNParty
  receiver : PNParty
  parcels : List PNParcel
  orderReference : String
  customerNumber : String
  printMedia : String
  deriving DecidableEq

/-- `PostNordClient._build_booking_payload` (`postnord.py` lines
143-203); `none` models the `AttributeError` on a shipment without
receiver or service info.  Note: unlike the DHL builder, the volume of
the first container is sent unmodified, and a missing container sends
volume `0.0`. -/
def build_booking_payload (sender : SenderConfig) (customer_number : String)
    (shipment : Shipment) (label_format : String) : Option PNPayload :=
  match shipment.receiver, shipment.service with
  | some recv, some service =>
    let container := shipment.containers.head?
    some
      { service :=
          { basicServiceCode := service.product_code
            additionalServiceCode :=
              if service.addon ≠ "" then [service.addon] else [] }
        sender :=
          { name1 := sender.name
            addressLine1 := sender.address1
            addressLine2 := none
            postalCode := sender.zipcode
            city := sender.city
            countryCode := sender.country
            contact := { emailAddress := sender.email
                         phoneNo := sender.phone } }
        receiver :=
          { name1 := recv.name
            addressLine1 := recv.address1
            addressLine2 := some recv.address2
            postalCode := recv.zipcode
            city := recv.city
            countryCode := recv.country
            contact := { emailAddress := recv.email
                         phoneNo := recv.phone
                         name := some recv.contact } }
        parcels :=
          [ { weight := { value := match container with
                            | some c => c.weight
                            | none => 1
                          unit := "kg" }
              volume := { value := match container with
                            | some c => c.volume
                            | none => 0
                          unit := "m3" }
              contents := match container with
                | some c => c.contents
                | none => ""
              numberOfPackages := match container with
                | some c => c.copies
                | none => 1 } ]
        orderReference := shipment.reference
        customerNumber := customer_number
        printMedia := pyUpper label_format }
  | _, _ => none

/-- `API_PATHS["print_documents"]` (`dhl.py` line 43). -/
def printDocumentsPath : String := "/printapi/v1/print/printdocuments"

/-- `API_PATHS["print_by_id"]` (`dhl.py` line 44). -/
def printByIdPath : String := "/printapi/v1/print/printdocumentsbyid"

/-- The cached transportInstruction object (`self._ti_cache` values);
its internal JSON structure is irrelevant to label retrieval, so it is
carried as an opaque string. -/
def TIData : Type := String

instance : DecidableEq TIData := fun a b => String.decEq a b

/-- One entry of the `reports` array of a Print API JSON response.
`type`/`content` model `report.get(...)` with the absent key as the
empty string (absent and empty compare identically in the source). -/
structure Report where
  name : String := ""
  type : String := ""
  contentType : String := ""
  content : String := ""
  deriving DecidableEq

/-- An HTTP response from the Print API after `raise_for_status`:
the `Content-Type` header, the raw body bytes (`response.content`),
the body text (`response.text`) and the parsed `reports` list of
`response.json()` (empty when the key is missing). -/
structure Response where
  contentType : String := ""
  content : List Nat := []
  text : String := ""
  reports : List Report := []
  deriving DecidableEq

/-- The JSON body POSTed to a Print API endpoint: either the cached
transportInstruction plus an options object, or a transport-instruction
id plus an options object. -/
inductive PrintPayload
  | byShipment (shipment : TIData) (options : List (String × Bool))
  | byId (transportInstructionId : String) (options : List (String × Bool))

/-- Oracle for an outbound HTTP POST: maps the endpoint path and the
payload to a response, or to an error (a network failure or a non-2xx
status raised by `raise_for_status`, after the session's retries). -/
def HttpOracle : Type := String → PrintPayload → Except String Response

/-- Error message of `_extract_label_from_response` for a 200 response
whose `reports` list is empty (`dhl.py` lines 348-352). -/
def emptyReportsMsg (endpoint text : String) : String :=
  "DHL " ++ endpoint ++ ": Svar 200 men inga reports. Response: " ++
    takeStr 200 text

/-- Error message of `_extract_label_from_response` when the selected
report has an empty `content` field (`dhl.py` lines 374-377). -/
def emptyContentMsg (endpoint : String) : String :=
  "DHL " ++ endpoint ++ ": Report finns men 'content' är tomt."

/-- Report selection of `_extract_label_from_response` (`dhl.py` lines
354-361): the first report whose `type` is `"Label"`, else the first
report. -/
def selectLabelReport (r0 : Report) (rest : List Report) : Report :=
  match (r0 :: rest).find? (fun r => r.type = "Label") with
  | some r => r
  | none => r0

/-- `DHLClient._extract_label_from_response` (`dhl.py` lines 327-384):
binary content types return the body verbatim; JSON responses select a
report and base64-decode its content; an empty reports list and an
empty content field raise; an unknown content type returns the raw
body. -/
def extract_label_from_response (resp : Response) (endpoint : String) :
    Except String (List Nat) :=
  if strContains resp.contentType "application/pdf" ||
      strContains resp.contentType "application/octet-stream" then
    .ok resp.content
  else if strContains resp.contentType "json" then
    match resp.reports with
    | [] => .error (emptyReportsMsg endpoint resp.text)
    | r0 :: rest =>
      let label_report := selectLabelReport r0 rest
      if label_report.content ≠ "" then
        .ok (b64decode label_report.content)
      else
        .error (emptyContentMsg endpoint)
  else
    .ok resp.content

/-- `DHLClient._extract_document_from_response` (`dhl.py` lines
386-415): pick the first report of the requested `type` with a
nonempty `content`; `none` when the response is not JSON or no such
report exists. -/
def extract_document_from_response (resp : Response) (doc_type : String) :
    Option (List Nat) :=
  if strContains resp.contentType "json" then
    match resp.reports.find? (fun r => r.type = doc_type ∧ r.content ≠ "") with
    | some r => some (b64decode r.content)
    | none => none
  else
    none

/-- `DHLClient._print_documents` (`dhl.py` lines 274-307): POST the
cached transportInstruction with `options = {"label": True}` to the
printdocuments endpoint and extract the label. -/
def print_documents (http : HttpOracle) (ti_data : TIData) :
    Except String (List Nat) :=
  match http printDocumentsPath (.byShipment ti_data [("label", true)]) with
  | .error e => .error e
  | .ok resp => extract_label_from_response resp "printdocuments"

/-- `DHLClient._print_documents_by_id` (`dhl.py` lines 309-325): POST
the transport-instruction id with `options = {"label": True}` to the
printdocumentsbyid endpoint and extract the label. -/
def print_documents_by_id (http : HttpOracle) (shipment_id : String) :
    Except String (List Nat) :=
  match http printByIdPath (.byId shipment_id [("label", true)]) with
  | .error e => .error e
  | .ok resp => extract_label_from_response resp "printdocumentsbyid"

/-- Error message of `get_label` when both retrieval tiers failed
(`dhl.py` lines 219-222); this is the `LabelUnavailableError` of the
specification. -/
def labelUnavailableMsg (shipment_id : String) : String :=
  "DHL: Kunde inte hämta etikett för " ++ shipment_id ++
    ". Varken printdocuments eller printdocumentsbyid fungerade."

/-- Error message of `get_all_documents` when no cached
transportInstruction exists (`dhl.py` lines 244-247). -/
def noCachedTIMsg (shipment_id : String) : String :=
  "DHL: Ingen cachad TI-data för " ++ shipment_id ++
    ". Anropa create_shipment() först."

/-- `DHLClient.get_label` (`dhl.py` lines 190-222): tier 1 POSTs the
cached creation response to printdocuments when the cache holds one;
on its failure, or with no cache entry, tier 2 falls back to
printdocumentsbyid; when both tiers fail the call raises. -/
def get_label (http : HttpOracle) (ti_cache : List (String × TIData))
    (shipment_id : String) : Except String (List Nat) :=
  let fallback : Except String (List Nat) :=
    match print_documents_by_id http shipment_id with
    | .ok b => .ok b
    | .error _ => .error (labelUnavailableMsg shipment_id)
  match dictGet ti_cache shipment_id with
  | some ti_data =>
    match print_documents http ti_data with
    | .ok b => .ok b
    | .error _ => fallback
  | none => fallback

/-- Result of `DHLClient.get_all_documents`: the mandatory label and
the optional shipment list. -/
structure Documents where
  label : List Nat
  shipment_list : Option (List Nat) := none
  deriving DecidableEq

/-- `DHLClient.get_all_documents` (`dhl.py` lines 224-272): requires a
cached transportInstruction (no by-id fallback); the label comes from
printdocuments with the label option and its failure propagates; the
shipment list comes from a second printdocuments call with the
shipmentList option, any failure of which degrades to `none`. -/
def get_all_documents (http : HttpOracle) (ti_cache : List (String × TIData))
    (shipment_id : String) : Except String Documents :=
  match dictGet ti_cache shipment_id with
  | none => .error (noCachedTIMsg shipment_id)
  | some ti_data =>
    match print_documents http ti_data with
    | .error e => .error e
    | .ok label =>
      let shipment_list :=
        match http printDocumentsPath
            (.byShipment ti_data [("shipmentList", true)]) with
        | .error _ => none
        | .ok resp => extract_document_from_response resp "ShipmentList"
      .ok { label := label, shipment_list := shipment_list }

/-- Lifecycle events emitted by the orchestrator (`orchestrator.py`
module docstring and `_notify` call sites). -/
inductive Event
  | shipment_ok (order_no tracking carrier : String)
  | shipment_error (order_no error : String)
  | file_done (filename : String)
  | file_error (filename error : String)
  deriving DecidableEq

/-- The registered event callback, which may itself raise. -/
def EventCallback : Type := Event → Except String Unit

/-- `ShipmentOrchestrator._notify` (`orchestrator.py` lines 61-67):
call the callback when one is registered; an exception it raises is
caught and logged, never propagated. -/
def notify (on_event : Option EventCallback) (ev : Event) :
    Except String Unit :=
  match on_event with
  | none => .ok ()
  | some cb =>
    match cb ev with
    | .ok _ => .ok ()
    | .error _ => .ok ()

/-- `ShipmentOrchestrator._acquire_lock` (`orchestrator.py` lines
204-219): with no existing marker the exclusive create succeeds; an
existing marker is reclaimed exactly when its age exceeds 300
seconds.  The marker age is `now - mtime` in seconds. -/
def acquire_lock (existing : Option ℚ) : Bool :=
  match existing with
  | none => true
  | some age => decide (age > 300)

/-- Where `process_file` moved the input file: the done directory, or
the error directory together with the text written to the `.error.txt`
sidecar. -/
inductive FileMove
  | toDone (destName : String)
  | toError (destName : String) (sidecar : String)
  deriving DecidableEq

/-- Sidecar text written by `_move_to_error` (`orchestrator.py` lines
236-240). -/
def sidecarText (ts filename reason : String) : String :=
  "Tid: " ++ ts ++ "\nFil: " ++ filename ++ "\nFel: " ++ reason ++ "\n"

/-- The outcome `process_file` produces for one input file: the
returned boolean, the events handed to `_notify` in order, the file
move performed, and the lock-marker state (age) left behind. -/
structure ProcessResult where
  returned : Bool
  events : List Event
  move : Option FileMove
  lockAfter : Option ℚ
  deriving DecidableEq

/-- One parsed shipment as the orchestrator's per-shipment loop sees
it: its order number, its carrier, and the outcome of
`_process_single` for it — `ok tracking` when the whole per-shipment
chain succeeded, `error msg` when any step of it raised. -/
structure ShipCase where
  order_no : String := ""
  carrier : CarrierType := .DHL
  outcome : Except String String := .ok ""

/-- Is an `Except` value a success? -/
def exceptIsOk {ε α : Type} : Except ε α → Bool
  | .ok _ => true
  | .error _ => false

/-- The event the per-shipment loop emits for one shipment:
`shipment_ok` with tracking and carrier value from `_process_single`
(line 198), or `shipment_error` from the handler (lines 97-100). -/
def shipEvent (sc : ShipCase) : Event :=
  match sc.outcome with
  | .ok tracking => .shipment_ok sc.order_no tracking sc.carrier.value
  | .error e => .shipment_error sc.order_no e

/-- The per-shipment loop of `process_file` (`orchestrator.py` lines
89-101): emit an event per shipment in order, and track the `all_ok`
flag, cleared by any failing shipment.  The callback's own result is
discarded: `_notify` never raises (theorem on `notify`). -/
def run_shipments (on_event : Option EventCallback) :
    List ShipCase → List Event × Bool
  | [] => ([], true)
  | sc :: rest =>
    let ev := shipEvent sc
    let _ := notify on_event ev
    let r := run_shipments on_event rest
    (ev :: r.1, match sc.outcome with
      | .ok _ => r.2
      | .error _ => false)

/-- The fixed reason string for a partially failed file
(`orchestrator.py` line 107). -/
def partialFailReason : String := "Delvis misslyckad bearbetning"

/-- `ShipmentOrchestrator.process_file` (`orchestrator.py` lines
69-125).  `ts` stands for the `datetime.now()` timestamp string used
for destination names; `lock` is the age of a pre-existing lock marker,
if any; `parse` is the parser's outcome (exception or shipment list,
with each shipment's `_process_single` outcome).  Skipping on a held
lock happens before the `try` block, so nothing is moved and the
foreign marker is left in place; once processing is entered the lock
is always released by the `finally` block. -/
def processFile (on_event : Option EventCallback) (ts filename : String)
    (lock : Option ℚ) (parse : Except String (List ShipCase)) :
    ProcessResult :=
  if acquire_lock lock then
    match parse with
    | .error e =>
      let _ := notify on_event (.file_error filename e)
      { returned := false
        events := [.file_error filename e]
        move := some (.toError (ts ++ "_" ++ filename) (sidecarText ts filename e))
        lockAfter := none }
    | .ok ships =>
      let r := run_shipments on_event ships
      if r.2 then
        let _ := notify on_event (.file_done filename)
        { returned := true
          events := r.1 ++ [.file_done filename]
          move := some (.toDone (ts ++ "_" ++ filename))
          lockAfter := none }
      else
        let _ := notify on_event (.file_error filename partialFailReason)
        { returned := false
          events := r.1 ++ [.file_error filename partialFailReason]
          move := some (.toError (ts ++ "_" ++ filename)
            (sidecarText ts filename partialFailReason))
          lockAfter := none }
  else
    { returned := false
      events := []
      move := none
      lockAfter := lock }

/-- Does every shipment of the list have a successful outcome?  This is
the value of the source's `all_ok` flag after the loop. -/
def allOk (ships : List ShipCase) : Bool :=
  ships.all (fun sc => exceptIsOk sc.outcome)

/-- A report of type "Waybill" (not a label), first in list order. -/
def reportWaybill : Report :=
  { name := "waybill_1.pdf", type := "Waybill",
    contentType := "application/pdf", content := "QUJD" }

/-- A report of type "Label", second in list order; its content is the
base64 encoding of the bytes 68, 69, 70. -/
def reportLabel : Report :=
  { name := "label_1.pdf", type := "Label",
    contentType := "application/pdf", content := "REVG" }

/-- A JSON print response with two reports of differing type, the
"Label" one second. -/
def respTwoReports : Response :=
  { contentType := "application/json", content := [], text := "",
    reports := [reportWaybill, reportLabel] }

/-- A binary print response: PDF content type, raw body bytes. -/
def respBinaryPdf : Response :=
  { contentType := "application/pdf", content := [37, 80, 68, 70],
    text := "", reports := [] }

/-- A 200 JSON print response whose reports list is empty. -/
def respEmptyReports : Response :=
  { contentType := "application/json; charset=utf-8", content := [],
    text := "\x7b\"reports\": []\x7d", reports := [] }

/-- An HTTP oracle under which every print call succeeds with the
binary PDF response. -/
def httpAlwaysPdf : HttpOracle := fun _path _payload => .ok respBinaryPdf

/-- An HTTP oracle under which every call fails (network error or
non-2xx after retries). -/
def httpAlwaysFail : HttpOracle := fun _path _payload => .error "503 Service Unavailable"

/-- An HTTP oracle that fails on the printdocuments endpoint and
succeeds with the binary PDF response elsewhere (in particular on the
printdocumentsbyid endpoint). -/
def httpDocsFailByIdOk : HttpOracle := fun path _payload =>
  if path = printDocumentsPath then .error "500 Internal Server Error"
  else .ok respBinaryPdf

/-- A transportInstruction cache holding one entry for shipment id
"S1". -/
def cacheS1 : List (String × TIData) := [("S1", ("TI-S1" : TIData))]

/-- A concrete sender configuration, as in the repository's test
fixtures. -/
def sender0 : SenderConfig :=
  { name := "Ernst P AB", address1 := "Mobelgatan 5", zipcode := "43133",
    city := "Molndal", country := "SE", phone := "+4631", email := "o@e.se" }

/-- A concrete receiver. -/
def recv0 : Receiver :=
  { name := "Test Mottagare AB", address1 := "Kungsgatan 1",
    zipcode := "41101", city := "Goteborg", country := "SE" }

/-- A shipment whose booking info has `pickup_booking = false` (no
pickup requested) but carries a pickup date. -/
def shUnrequestedBooking : Shipment :=
  { order_no := "107739-1", reference := "107739-1",
    service := some
      { product_code := "102",
        booking := some { pickup_booking := false, pickup_date := "2025-12-24" } },
    receiver := some recv0,
    containers := [ { package_code := "PKT", weight := mkRat 11 2,
                      volume := mkRat 4 1000 } ] }

/-- A shipment with a requested booking carrying a pickup date. -/
def shBooked : Shipment :=
  { order_no := "107739-2", reference := "107739-2",
    service := some
      { product_code := "102",
        booking := some { pickup_booking := true, pickup_date := "2026-02-19" } },
    receiver := some recv0,
    containers := [ { package_code := "PKT", weight := mkRat 11 2,
                      volume := mkRat 4 1000 } ] }

/-- A shipment whose single container has weight 0 (as the parser
produces when the export omits the weight field). -/
def shWeightZero : Shipment :=
  { order_no := "107739-3",
    service := some { product_code := "102" },
    receiver := some recv0,
    containers := [ { package_code := "PKT", weight := 0,
                      volume := mkRat 4 1000 } ] }

/-- A pallet-product (210) shipment with no containers. -/
def shPallet210NoContainer : Shipment :=
  { order_no := "107739-4",
    service := some { product_code := "210" },
    receiver := some recv0,
    containers := [] }

/-- A PostNord shipment with no containers. -/
def shPostNordNoContainer : Shipment :=
  { order_no := "107739-5",
    service := some { carrier := .POSTNORD, product_code := "19" },
    receiver := some recv0,
    containers := [] }

/-- A `<container>` element whose `packagecode` val is present but
blank (whitespace only), which strips to the empty string. -/
def elemBlankPackagecode : XElem :=
  { tag := "container", attrs := [("type", "parcel")],
    children :=
      [ { tag := "val", attrs := [("n", "packagecode")], text := some "  " }
      , { tag := "val", attrs := [("n", "copies")], text := some "1" }
      , { tag := "val", attrs := [("n", "weight")], text := some "5.5" }
      , { tag := "val", attrs := [("n", "volume")], text := some "0" } ] }

/-- The container `_parse_container` produces for
`elemBlankPackagecode`: its `package_code` is empty, not "PC". -/
def contBlankCode : Container :=
  { container_type := "parcel", copies := 1, package_code := "",
    weight := mkRat 11 2, volume := 0 }

/-- A pallet-product (210) shipment holding the parsed container with
the empty package code. -/
def shPallet210BlankCode : Shipment :=
  { order_no := "107739-6",
    service := some { product_code := "210" },
    receiver := some recv0,
    containers := [contBlankCode] }

/-- A `<container>` element with no `packagecode` val at all. -/
def elemNoPackagecode : XElem :=
  { tag := "container", attrs := [],
    children :=
      [ { tag := "val", attrs := [("n", "copies")], text := some "2" }
      , { tag := "val", attrs := [("n", "weight")], text := some "1.0" } ] }

/-- C7: every service-code string is split on ':' with a
case-insensitive carrier token; "DHL:104:AVIS" parses to carrier DHL,
product "104", addon "AVIS", and "PN:19" to the second carrier,
product "19", empty addon; a code with fewer than two segments fails
with the invalid-service-code error, and a code whose carrier token is
unrecognized fails with the unknown-carrier error. -/
theorem C7_parse_srvid_grammar :
    parse_srvid "DHL:104:AVIS" = .ok (.DHL, "104", "AVIS") ∧
    parse_srvid "PN:19" = .ok (.POSTNORD, "19", "") ∧
    parse_srvid "dhl:104" = .ok (.DHL, "104", "") ∧
    (∀ s : String, (pySplit s ':').length < 2 →
      parse_srvid s = .error (invalidSrvidMsg s)) ∧
    (∀ s : String, 2 ≤ (pySplit s ':').length →
      carrierOfValue (pyUpper (pyStrip ((pySplit s ':').getD 0 ""))) = none →
      parse_srvid s = .error
        (unknownCarrierMsg (pyUpper (pyStrip ((pySplit s ':').getD 0 ""))) s)) := by
  refine ⟨by decide, by decide, by decide, ?_, ?_⟩
  · intro s h
    unfold parse_srvid
    rw [if_pos h]
  · intro s h2 hnone
    unfold parse_srvid
    rw [if_neg (by omega)]
    simp only [hnone]

/-- Witness for C7: the hypotheses of the universal parts are
satisfiable — a zero-separator code and an unknown-carrier code both
fail with the respective errors. -/
theorem C7_parse_srvid_grammar_witness :
    parse_srvid "DHL104" = .error (invalidSrvidMsg "DHL104") ∧
    parse_srvid "XX:1" = .error
      (unknownCarrierMsg (pyUpper (pyStrip ((pySplit "XX:1" ':').getD 0 ""))) "XX:1") :=
  ⟨C7_parse_srvid_grammar.2.2.2.1 "DHL104" (by decide),
   C7_parse_srvid_grammar.2.2.2.2 "XX:1" (by decide) (by decide)⟩

/-- C8: postal-code normalization strips a 2-letter country prefix
followed by a hyphen exactly when the trimmed string is longer than 3
characters and position 2 is a hyphen preceded by two alphabetic
characters; "DK-5220" becomes "5220", "  43133  " becomes "43133",
and "123" passes through unchanged. -/
theorem C8_clean_postal_code_normalization :
    (∀ z : String,
      ((pyStrip z).toList.length > 3 ∧ (pyStrip z).toList.getD 2 ' ' = '-' ∧
          ((pyStrip z).toList.take 2).all Char.isAlpha = true →
        clean_postal_code z = ⟨(pyStrip z).toList.drop 3⟩) ∧
      (¬ ((pyStrip z).toList.length > 3 ∧ (pyStrip z).toList.getD 2 ' ' = '-' ∧
          ((pyStrip z).toList.take 2).all Char.isAlpha = true) →
        clean_postal_code z = pyStrip z)) ∧
    clean_postal_code "DK-5220" = "5220" ∧
    clean_postal_code "  43133  " = "43133" ∧
    clean_postal_code "123" = "123" := by
  refine ⟨?_, by decide, by decide, by decide⟩
  intro z
  constructor
  · intro h
    unfold clean_postal_code
    rw [if_pos h]
  · intro h
    unfold clean_postal_code
    rw [if_neg h]

/-- Witness for C8: the stripping condition holds for "DK-5220" and
the theorem's first branch applies there. -/
theorem C8_clean_postal_code_normalization_witness :
    clean_postal_code "DK-5220" = ⟨(pyStrip "DK-5220").toList.drop 3⟩ :=
  (C8_clean_postal_code_normalization.1 "DK-5220").1 (by decide)

/-- C6: a binary (PDF/octet-stream) print response is returned
verbatim; a JSON response with a non-empty reports list yields the
decoded content of the report whose type is "Label", falling back to
the first report only when none matches; an empty reports list in a
200-status JSON response raises an error carrying the truncated
response body and never returns bytes.  Concretely, with two reports
of differing type the "Label" one is decoded, not the first. -/
theorem C6_extract_label_from_response_paths :
    (∀ (resp : Response) (endpoint : String),
      (strContains resp.contentType "application/pdf" = true ∨
        strContains resp.contentType "application/octet-stream" = true) →
      extract_label_from_response resp endpoint = .ok resp.content) ∧
    (∀ (resp : Response) (endpoint : String),
      strContains resp.contentType "application/pdf" = false →
      strContains resp.contentType "application/octet-stream" = false →
      strContains resp.contentType "json" = true →
      resp.reports = [] →
      extract_label_from_response resp endpoint =
        .error (emptyReportsMsg endpoint resp.text) ∧
      ∀ b : List Nat, extract_label_from_response resp endpoint ≠ .ok b) ∧
    (∀ (resp : Response) (endpoint : String) (r0 : Report) (rest : List Report),
      strContains resp.contentType "application/pdf" = false →
      strContains resp.contentType "application/octet-stream" = false →
      strContains resp.contentType "json" = true →
      resp.reports = r0 :: rest →
      (selectLabelReport r0 rest).content ≠ "" →
      extract_label_from_response resp endpoint =
        .ok (b64decode (selectLabelReport r0 rest).content)) ∧
    (∀ (r0 : Report) (rest : List Report),
      (r0 :: rest).find? (fun r => r.type = "Label") = none →
      selectLabelReport r0 rest = r0) ∧
    extract_label_from_response respTwoReports "printdocuments" =
      .ok [68, 69, 70] ∧
    reportWaybill.type ≠ "Label" ∧ respTwoReports.reports.getD 0 reportLabel = reportWaybill := by
  refine ⟨?_, ?_, ?_, ?_, by decide, by decide, by decide⟩
  · intro resp endpoint h
    unfold extract_label_from_response
    rcases h with h | h <;> simp [h]
  · intro resp endpoint h1 h2 h3 hrep
    unfold extract_label_from_response
    rw [hrep]
    simp [h1, h2, h3]
  · intro resp endpoint r0 rest h1 h2 h3 hrep hc
    unfold extract_label_from_response
    rw [hrep]
    simp only [h1, h2, h3, Bool.or_self, Bool.false_eq_true, if_false, if_true]
    rw [if_pos hc]
  · intro r0 rest hfind
    unfold selectLabelReport
    rw [hfind]

/-- Witness for C6: the binary branch at a concrete PDF response, the
empty-reports branch at a concrete empty JSON response, and the
selection branch at the concrete two-report response. -/
theorem C6_extract_label_from_response_paths_witness :
    extract_label_from_response respBinaryPdf "printdocuments" =
      .ok respBinaryPdf.content ∧
    extract_label_from_response respEmptyReports "printdocumentsbyid" =
      .error (emptyReportsMsg "printdocumentsbyid" respEmptyReports.text) ∧
    extract_label_from_response respTwoReports "printdocuments" =
      .ok (b64decode (selectLabelReport reportWaybill [reportLabel]).content) :=
  ⟨C6_extract_label_from_response_paths.1 respBinaryPdf "printdocuments"
      (Or.inl (by decide)),
   (C6_extract_label_from_response_paths.2.1 respEmptyReports "printdocumentsbyid"
      (by decide) (by decide) (by decide) (by decide)).1,
   C6_extract_label_from_response_paths.2.2.1 respTwoReports "printdocuments"
      reportWaybill [reportLabel] (by decide) (by decide) (by decide)
      (by decide) (by decide)⟩

/-- Counterexample to C2 as stated: `get_all_documents` — the
label/document retrieval entry point the orchestrator calls — does not
follow the two-tier strategy.  With no cached creation response it
fails immediately with the no-cache error even though the
print-documents-by-id endpoint would succeed (as `get_label` under the
same oracle shows). -/
theorem C2_counterexample_get_all_documents_no_fallback :
    get_all_documents httpAlwaysPdf [] "S1" = .error (noCachedTIMsg "S1") ∧
    print_documents_by_id httpAlwaysPdf "S1" = .ok respBinaryPdf.content ∧
    get_label httpAlwaysPdf [] "S1" = .ok respBinaryPdf.content := by
  refine ⟨by decide, by decide, by decide⟩

/-- C2 amended: `get_label` follows the two-tier strategy — a cached
creation response is POSTed to printdocuments, with fallback to
printdocumentsbyid on its failure or in the absence of cache, and the
call fails with the label-unavailable error only when both tiers
fail.  `get_all_documents`, by contrast, requires a cached creation
response: it fails immediately when none exists, and a failure of the
printdocuments call propagates without the by-id fallback. -/
theorem C2_label_retrieval_two_tier_amended :
    (∀ (http : HttpOracle) (cache : List (String × TIData)) (sid : String)
        (ti : TIData) (b : List Nat),
      dictGet cache sid = some ti → print_documents http ti = .ok b →
      get_label http cache sid = .ok b) ∧
    (∀ (http : HttpOracle) (cache : List (String × TIData)) (sid : String)
        (ti : TIData) (e : String) (b : List Nat),
      dictGet cache sid = some ti → print_documents http ti = .error e →
      print_documents_by_id http sid = .ok b →
      get_label http cache sid = .ok b) ∧
    (∀ (http : HttpOracle) (cache : List (String × TIData)) (sid : String)
        (ti : TIData) (e e2 : String),
      dictGet cache sid = some ti → print_documents http ti = .error e →
      print_documents_by_id http sid = .error e2 →
      get_label http cache sid = .error (labelUnavailableMsg sid)) ∧
    (∀ (http : HttpOracle) (cache : List (String × TIData)) (sid : String)
        (b : List Nat),
      dictGet cache sid = none → print_documents_by_id http sid = .ok b →
      get_label http cache sid = .ok b) ∧
    (∀ (http : HttpOracle) (cache : List (String × TIData)) (sid : String)
        (e : String),
      dictGet cache sid = none → print_documents_by_id http sid = .error e →
      get_label http cache sid = .error (labelUnavailableMsg sid)) ∧
    (∀ (http : HttpOracle) (cache : List (String × TIData)) (sid : String),
      dictGet cache sid = none →
      get_all_documents http cache sid = .error (noCachedTIMsg sid)) ∧
    (∀ (http : HttpOracle) (cache : List (String × TIData)) (sid : String)
        (ti : TIData) (e : String),
      dictGet cache sid = some ti → print_documents http ti = .error e →
      get_all_documents http cache sid = .error e) := by
  refine ⟨?_, ?_, ?_, ?_, ?_, ?_, ?_⟩
  · intro http cache sid ti b hc hp
    simp [get_label, hc, hp]
  · intro http cache sid ti e b hc hp hbyid
    simp [get_label, hc, hp, hbyid]
  · intro http cache sid ti e e2 hc hp hbyid
    simp [get_label, hc, hp, hbyid]
  · intro http cache sid b hc hbyid
    simp [get_label, hc, hbyid]
  · intro http cache sid e hc hbyid
    simp [get_label, hc, hbyid]
  · intro http cache sid hc
    simp [get_all_documents, hc]
  · intro http cache sid ti e hc hp
    simp [get_all_documents, hc, hp]

/-- Witness for the amended C2: each branch instantiated with concrete
oracles — the cached tier-1 success, the tier-1-failure/tier-2-success
fallback, the both-tiers-fail error, and `get_all_documents` with an
empty cache. -/
theorem C2_label_retrieval_two_tier_amended_witness :
    get_label httpAlwaysPdf cacheS1 "S1" = .ok respBinaryPdf.content ∧
    get_label httpDocsFailByIdOk cacheS1 "S1" = .ok respBinaryPdf.content ∧
    get_label httpAlwaysFail cacheS1 "S1" = .error (labelUnavailableMsg "S1") ∧
    get_all_documents httpAlwaysPdf [] "S2" = .error (noCachedTIMsg "S2") :=
  ⟨C2_label_retrieval_two_tier_amended.1 httpAlwaysPdf cacheS1 "S1"
      ( "TI-S1" : TIData) respBinaryPdf.content (by decide) (by decide),
   C2_label_retrieval_two_tier_amended.2.1 httpDocsFailByIdOk cacheS1 "S1"
      ( "TI-S1" : TIData) "500 Internal Server Error" respBinaryPdf.content
      (by decide) (by decide) (by decide),
   C2_label_retrieval_two_tier_amended.2.2.1 httpAlwaysFail cacheS1 "S1"
      ( "TI-S1" : TIData) "503 Service Unavailable" "503 Service Unavailable"
      (by decide) (by decide) (by decide),
   C2_label_retrieval_two_tier_amended.2.2.2.2.2.1 httpAlwaysPdf [] "S2"
      (by decide)⟩

/-- Counterexample to C3 as stated: for a shipment whose booking info
has `pickup_booking = false` (no booking requested) but carries a
date, the built payload's shippingDate is the pickup date, not today's
date as the claim's "otherwise" branch requires. -/
theorem C3_counterexample_unrequested_booking_date :
    (build_transport_instruction sender0 "101733" "2025-10-12"
        shUnrequestedBooking).map DHLPayload.shippingDate = some "2025-12-24" ∧
    shUnrequestedBooking.service.map
        (fun s => s.booking.map BookingInfo.pickup_booking) =
      some (some false) ∧
    ("2025-12-24" : String) ≠ "2025-10-12" := by
  refine ⟨by decide, by decide, by decide⟩

/-- C3 amended: the shippingDate of the built DHL payload equals the
booking's pickup date whenever booking info is attached and carries a
nonempty date — regardless of the pickup-requested flag — and
otherwise equals today's date. -/
theorem C3_shipping_date_amended :
    ∀ (sender : SenderConfig) (cn today : String) (sh : Shipment)
      (recv : Receiver) (svc : ServiceInfo),
      sh.receiver = some recv → sh.service = some svc →
      (build_transport_instruction sender cn today sh).map
          DHLPayload.shippingDate =
        some (match svc.booking with
          | some b => if b.pickup_date ≠ "" then b.pickup_date else today
          | none => today) := by
  intro sender cn today sh recv svc hr hs
  cases hb : svc.booking <;>
    simp [build_transport_instruction, hr, hs, hb]

/-- Witness for the amended C3: a requested booking with a date yields
that date; the unrequested booking of the counterexample also yields
its date; a shipment without booking info yields today. -/
theorem C3_shipping_date_amended_witness :
    (build_transport_instruction sender0 "101733" "2025-10-12" shBooked).map
        DHLPayload.shippingDate = some "2026-02-19" ∧
    (build_transport_instruction sender0 "101733" "2025-10-12"
        shWeightZero).map DHLPayload.shippingDate = some "2025-10-12" :=
  ⟨C3_shipping_date_amended sender0 "101733" "2025-10-12" shBooked recv0
      { product_code := "102",
        booking := some { pickup_booking := true, pickup_date := "2026-02-19" } }
      (by decide) (by decide),
   C3_shipping_date_amended sender0 "101733" "2025-10-12" shWeightZero recv0
      { product_code := "102" } (by decide) (by decide)⟩

/-- Counterexample to C4 as stated: the DHL builder sends a container
weight of 0 unmodified (`totalWeight = 0`, not strictly positive); the
PostNord builder sends volume 0.0 for a shipment with no containers;
and a container-less DHL shipment for the pallet product 210 gets the
per-product default "701", not the generic fallback "PKT". -/
theorem C4_counterexample_zero_weight_and_pn_volume :
    (build_transport_instruction sender0 "" "2025-10-12" shWeightZero).map
        DHLPayload.totalWeight = some 0 ∧
    ¬ ((0 : ℚ) > 0) ∧
    (build_booking_payload sender0 "" shPostNordNoContainer "pdf").map
        (fun p => p.parcels.map (fun pc => pc.volume.value)) = some [0] ∧
    (build_transport_instruction sender0 "" "2025-10-12"
        shPallet210NoContainer).map
        (fun p => p.pieces.map DHLPiece.packageType) = some ["701"] ∧
    ("701" : String) ≠ "PKT" := by
  refine ⟨by decide, by decide, by decide, by decide, by decide⟩

/-- C4 amended: in the DHL payload the volume is strictly positive — a
container volume of 0 or less is raised to the 0.001 sentinel at build
time — and a shipment with no containers yields default weight 1.0,
the minimum volume, and the package type from the per-product default
table with the generic "PKT" fallback; the container weight, however,
is sent unmodified (it may be 0), and the PostNord builder sends the
container volume unmodified (0.0 when no container exists). -/
theorem C4_volume_invariant_amended :
    (∀ (sender : SenderConfig) (cn today : String) (sh : Shipment)
        (p : DHLPayload),
      build_transport_instruction sender cn today sh = some p →
      0 < p.totalVolume ∧ p.pieces.map DHLPiece.volume = [p.totalVolume]) ∧
    (∀ (sender : SenderConfig) (cn today : String) (sh : Shipment)
        (recv : Receiver) (svc : ServiceInfo),
      sh.receiver = some recv → sh.service = some svc →
      sh.containers = [] →
      (build_transport_instruction sender cn today sh).map
          (fun p => (p.totalWeight, p.totalVolume,
            p.pieces.map DHLPiece.packageType)) =
        some (1, mkRat 1 1000,
          [(packageTypeDefaults svc.product_code).getD "PKT"])) ∧
    (∀ (sender : SenderConfig) (cn today : String) (sh : Shipment)
        (recv : Receiver) (svc : ServiceInfo) (c : Container)
        (rest : List Container),
      sh.receiver = some recv → sh.service = some svc →
      sh.containers = c :: rest →
      (build_transport_instruction sender cn today sh).map
          DHLPayload.totalWeight = some c.weight) ∧
    (∀ (sender : SenderConfig) (cn : String) (sh : Shipment)
        (recv : Receiver) (svc : ServiceInfo) (c : Container)
        (rest : List Container) (fmt : String),
      sh.receiver = some recv → sh.service = some svc →
      sh.containers = c :: rest →
      (build_booking_payload sender cn sh fmt).map
          (fun p => p.parcels.map (fun pc => pc.volume.value)) =
        some [c.volume]) := by
  refine ⟨?_, ?_, ?_, ?_⟩
  · intro sender cn today sh p hp
    cases hr : sh.receiver with
    | none => simp [build_transport_instruction, hr] at hp
    | some recv =>
      cases hs : sh.service with
      | none => simp [build_transport_instruction, hr, hs] at hp
      | some svc =>
        rw [build_transport_instruction, hr, hs] at hp
        simp only [Option.some.injEq] at hp
        subst hp
        constructor
        · simp only
          split
          · decide
          · rename_i hnle
            exact lt_of_not_le hnle
        · simp
  · intro sender cn today sh recv svc hr hs hc
    simp [build_transport_instruction, hr, hs, hc]
  · intro sender cn today sh recv svc c rest hr hs hc
    simp [build_transport_instruction, hr, hs, hc]
  · intro sender cn sh recv svc c rest fmt hr hs hc
    simp [build_booking_payload, hr, hs, hc]

/-- Witness for the amended C4: the zero-volume container is clamped
to the sentinel, the container-less DHL shipment gets the defaults,
the zero-weight container's weight passes through, and the PostNord
parcel carries the container's volume unmodified. -/
theorem C4_volume_invariant_amended_witness :
    (0 : ℚ) < mkRat 1 1000 ∧
    (build_transport_instruction sender0 "" "2025-10-12"
        shPallet210NoContainer).map
        (fun p => (p.totalWeight, p.totalVolume,
          p.pieces.map DHLPiece.packageType)) =
      some (1, mkRat 1 1000, ["701"]) ∧
    (build_transport_instruction sender0 "" "2025-10-12" shWeightZero).map
        DHLPayload.totalWeight = some (0 : ℚ) ∧
    (build_booking_payload sender0 "" shPostNordNoContainer "pdf").map
        (fun p => p.parcels.map (fun pc => pc.volume.value)) ≠ none := by
  refine ⟨by decide, ?_, ?_, ?_⟩
  · exact C4_volume_invariant_amended.2.1 sender0 "" "2025-10-12"
      shPallet210NoContainer recv0 { product_code := "210" }
      (by decide) (by decide) (by decide)
  · exact C4_volume_invariant_amended.2.2.1 sender0 "" "2025-10-12"
      shWeightZero recv0 { product_code := "102" }
      { package_code := "PKT", weight := 0, volume := mkRat 4 1000 } []
      (by decide) (by decide) (by decide)
  · intro hnone
    simp [build_booking_payload, shPostNordNoContainer] at hnone

/-- Counterexample to C9 as stated: a `<container>` element whose
`packagecode` val is present but blank parses to a container with an
empty `package_code` (not "PC"), and for the pallet product 210 the
built payload then takes its package type from the default table
("701"), which the claim says is never consulted. -/
theorem C9_counterexample_blank_packagecode :
    parse_container elemBlankPackagecode = some contBlankCode ∧
    contBlankCode.package_code = "" ∧
    (build_transport_instruction sender0 "" "2025-10-12"
        shPallet210BlankCode).map
        (fun p => p.pieces.map DHLPiece.packageType) = some ["701"] ∧
    ("701" : String) ≠ contBlankCode.package_code := by
  refine ⟨by decide, by decide, by decide, by decide⟩

/-- C9 amended: the parser substitutes "PC" only when the export omits
the `packagecode` field entirely (a present-but-blank field yields an
empty code); in general the parsed `package_code` is the stripped
field value with default "PC".  For a shipment whose first container
carries a nonempty `package_code`, the built DHL payload uses exactly
that code, and neither the per-product default table nor the "PKT"
fallback is consulted. -/
theorem C9_package_code_amended :
    (∀ (elem : XElem) (c : Container),
      parse_container elem = some c →
      c.package_code = valsGet (extract_vals elem) "packagecode" "PC") ∧
    (∀ (elem : XElem) (c : Container),
      parse_container elem = some c →
      dictGet (extract_vals elem) "packagecode" = none →
      c.package_code = "PC") ∧
    (∀ (sender : SenderConfig) (cn today : String) (sh : Shipment)
        (recv : Receiver) (svc : ServiceInfo) (c : Container)
        (rest : List Container),
      sh.receiver = some recv → sh.service = some svc →
      sh.containers = c :: rest → c.package_code ≠ "" →
      (build_transport_instruction sender cn today sh).map
          (fun p => p.pieces.map DHLPiece.packageType) =
        some [c.package_code]) := by
  refine ⟨?_, ?_, ?_⟩
  · intro elem c hp
    simp only [parse_container] at hp
    split at hp
    · simp only [Option.some.injEq] at hp
      subst hp
      rfl
    · exact absurd hp (by simp)
  · intro elem c hp hnone
    simp only [parse_container] at hp
    split at hp
    · simp only [Option.some.injEq] at hp
      subst hp
      simp [valsGet, hnone]
    · exact absurd hp (by simp)
  · intro sender cn today sh recv svc c rest hr hs hc hcode
    simp [build_transport_instruction, hr, hs, hc, hcode]

/-- Witness for the amended C9: the blank-field element parses with
the stripped (empty) value, an element with no packagecode val parses
to "PC", and the explicit code "PKT" of a concrete shipment's
container is the package type of its built payload. -/
theorem C9_package_code_amended_witness :
    contBlankCode.package_code =
      valsGet (extract_vals elemBlankPackagecode) "packagecode" "PC" ∧
    (∀ c : Container, parse_container elemNoPackagecode = some c →
      c.package_code = "PC") ∧
    (build_transport_instruction sender0 "101733" "2025-10-12" shBooked).map
        (fun p => p.pieces.map DHLPiece.packageType) = some ["PKT"] :=
  ⟨C9_package_code_amended.1 elemBlankPackagecode contBlankCode (by decide),
   fun c hc => C9_package_code_amended.2.1 elemNoPackagecode c hc (by decide),
   C9_package_code_amended.2.2 sender0 "101733" "2025-10-12" shBooked recv0
      { product_code := "102",
        booking := some { pickup_booking := true, pickup_date := "2026-02-19" } }
      { package_code := "PKT", weight := mkRat 11 2, volume := mkRat 4 1000 }
      [] (by decide) (by decide) (by decide) (by decide)⟩

/-- The per-shipment loop emits exactly one event per shipment, in
input order, and its flag is the conjunction of the per-shipment
successes — independently of the registered callback. -/
theorem run_shipments_spec (on_event : Option EventCallback)
    (ships : List ShipCase) :
    run_shipments on_event ships = (ships.map shipEvent, allOk ships) := by
  induction ships with
  | nil => rfl
  | cons sc rest ih =>
    simp only [run_shipments, ih, List.map_cons, allOk, List.all_cons]
    cases hsc : sc.outcome <;> simp [exceptIsOk, allOk, hsc]

/-- C1: with the lock free and a successful parse, each shipment
yields exactly one event — `shipment_ok` with its tracking number on
success, `shipment_error` with the error on failure — in input order,
so a failing shipment never prevents later ones from being attempted;
the file then moves to the done directory with `file_done` when all
succeeded, and otherwise to the error directory under a
timestamp-prefixed name with the textual sidecar reason and a
`file_error` event, while the `shipment_ok` events of the successful
shipments remain in the trace. -/
theorem C1_per_shipment_isolation_and_finalization :
    ∀ (cb : Option EventCallback) (ts filename : String)
      (ships : List ShipCase),
      (processFile cb ts filename none (.ok ships)).events =
        ships.map shipEvent ++
          [if allOk ships then Event.file_done filename
           else Event.file_error filename partialFailReason] ∧
      (processFile cb ts filename none (.ok ships)).move =
        some (if allOk ships then FileMove.toDone (ts ++ "_" ++ filename)
          else FileMove.toError (ts ++ "_" ++ filename)
            (sidecarText ts filename partialFailReason)) ∧
      (processFile cb ts filename none (.ok ships)).returned = allOk ships ∧
      (∀ sc ∈ ships, ∀ t : String, sc.outcome = .ok t →
        shipEvent sc = .shipment_ok sc.order_no t sc.carrier.value) ∧
      (∀ sc ∈ ships, ∀ e : String, sc.outcome = .error e →
        shipEvent sc = .shipment_error sc.order_no e) := by
  intro cb ts filename ships
  have hrun := run_shipments_spec cb ships
  refine ⟨?_, ?_, ?_, ?_, ?_⟩
  · simp only [processFile, acquire_lock, if_true, hrun]
    cases h : allOk ships <;> simp [h]
  · simp only [processFile, acquire_lock, if_true, hrun]
    cases h : allOk ships <;> simp [h]
  · simp only [processFile, acquire_lock, if_true, hrun]
    cases h : allOk ships <;> simp [h]
  · intro sc _ t hsc
    simp [shipEvent, hsc]
  · intro sc _ e hsc
    simp [shipEvent, hsc]

/-- Witness for C1: a two-shipment file where the first succeeds and
the second one's creation call fails produces the `shipment_ok` event
for the first, the `shipment_error` for the second, the error move
with the sidecar, and a false return. -/
theorem C1_per_shipment_isolation_and_finalization_witness :
    (processFile none "20251012_120000" "order.xml" none
        (.ok [ { order_no := "A", carrier := .DHL, outcome := .ok "TRK1" }
             , { order_no := "B", carrier := .DHL,
                 outcome := .error "500 Server Error" } ])).events =
      [ Event.shipment_ok "A" "TRK1" "DHL"
      , Event.shipment_error "B" "500 Server Error"
      , Event.file_error "order.xml" partialFailReason ] ∧
    (processFile none "20251012_120000" "order.xml" none
        (.ok [ { order_no := "A", carrier := .DHL, outcome := .ok "TRK1" }
             , { order_no := "B", carrier := .DHL,
                 outcome := .error "500 Server Error" } ])).move =
      some (FileMove.toError "20251012_120000_order.xml"
        (sidecarText "20251012_120000" "order.xml" partialFailReason)) := by
  have h := C1_per_shipment_isolation_and_finalization none "20251012_120000"
    "order.xml"
    [ { order_no := "A", carrier := .DHL, outcome := .ok "TRK1" }
    , { order_no := "B", carrier := .DHL, outcome := .error "500 Server Error" } ]
  exact ⟨by rw [h.1]; decide, by rw [h.2.1]; decide⟩

/-- C5: lock acquisition is create-if-absent; a marker strictly older
than the 300-second staleness threshold is reclaimed and processing
proceeds exactly as with no marker; a younger marker makes
process_file return false with no events, no file move, and the
foreign marker left untouched; and whenever processing was entered
(the lock was acquired) the marker is gone when process_file
returns. -/
theorem C5_locking_protocol :
    acquire_lock none = true ∧
    (∀ age : ℚ, age > 300 →
      acquire_lock (some age) = true ∧
      ∀ (cb : Option EventCallback) (ts fn : String)
        (parse : Except String (List ShipCase)),
        processFile cb ts fn (some age) parse =
          processFile cb ts fn none parse) ∧
    (∀ age : ℚ, age ≤ 300 →
      ∀ (cb : Option EventCallback) (ts fn : String)
        (parse : Except String (List ShipCase)),
        processFile cb ts fn (some age) parse =
          { returned := false, events := [], move := none,
            lockAfter := some age }) ∧
    (∀ (lock : Option ℚ) (cb : Option EventCallback) (ts fn : String)
        (parse : Except String (List ShipCase)),
      acquire_lock lock = true →
      (processFile cb ts fn lock parse).lockAfter = none) := by
  refine ⟨rfl, ?_, ?_, ?_⟩
  · intro age h
    have ha : acquire_lock (some age) = true := by
      simp [acquire_lock, h]
    refine ⟨ha, ?_⟩
    intro cb ts fn parse
    simp only [processFile, ha, if_true]
    rfl
  · intro age h cb ts fn parse
    have ha : acquire_lock (some age) = false := by
      simp [acquire_lock]
      exact h
    simp [processFile, ha]
  · intro lock cb ts fn parse h
    simp only [processFile, h, if_true]
    rcases parse with e | ships
    · rfl
    · cases hr : (run_shipments cb ships).2 <;> simp [hr]

/-- Witness for C5: a 301-second-old marker is reclaimed and
processing proceeds; a 10-second-old marker skips the file without
side effects; entering processing on a free lock leaves no marker. -/
theorem C5_locking_protocol_witness :
    processFile none "TS" "f.xml" (some 301) (.ok []) =
      processFile none "TS" "f.xml" none (.ok []) ∧
    processFile none "TS" "f.xml" (some 10) (.ok []) =
      { returned := false, events := [], move := none, lockAfter := some 10 } ∧
    (processFile none "TS" "f.xml" none (.error "parse error")).lockAfter =
      none :=
  ⟨(C5_locking_protocol.2.1 301 (by norm_num)).2 none "TS" "f.xml" (.ok []),
   C5_locking_protocol.2.2.1 10 (by norm_num) none "TS" "f.xml" (.ok []),
   C5_locking_protocol.2.2.2 none none "TS" "f.xml" (.error "parse error") rfl⟩

/-- C10: an exception raised by the registered event callback is
caught inside the notification helper — `_notify` always returns
normally, whatever the callback does — and the whole outcome of
process_file (return value, events attempted, file move, lock state)
is the same for every callback, so a failing event consumer never
changes the result, never aborts shipment processing, and never
prevents later events from being attempted. -/
theorem C10_event_callback_isolation :
    (∀ (cb : EventCallback) (ev : Event), notify (some cb) ev = .ok ()) ∧
    (∀ (ev : Event), notify none ev = .ok ()) ∧
    (∀ (cb cb' : Option EventCallback) (ts fn : String) (lock : Option ℚ)
        (parse : Except String (List ShipCase)),
      processFile cb ts fn lock parse = processFile cb' ts fn lock parse) := by
  refine ⟨?_, fun ev => rfl, ?_⟩
  · intro cb ev
    simp only [notify]
    cases cb ev <;> rfl
  · intro cb cb' ts fn lock parse
    rcases parse with e | ships
    · rfl
    · simp only [processFile, run_shipments_spec]

end Garp
